import Mathlib

/-!
Shallow embedding of the pesaprime browser client (src/services/api.ts and
src/App.tsx) in Lean 4, together with theorems about its token storage,
header construction, HTTP error normalization, retry loop, URL composition
and route guards.

Modelling conventions:
  * `localStorage` is a finite key-value map, modelled as an association
    list in which `setItem` replaces any previous binding of the key.
  * JavaScript strings are Lean `String`s; `undefined` is `Option.none`.
  * JSON values are the inductive `Json`; an HTTP response body is carried
    as its raw text together with the outcome of `JSON.parse` on that text
    (`none` when `JSON.parse` throws).
  * Thrown JavaScript errors are `JsError` records; the `isTypeError` flag
    records whether the thrown value is a `TypeError` (as thrown by `fetch`
    on network failure).
-/

namespace Pesaprime

/-! ## Browser storage (the `Storage` interface used via `localStorage`) -/

/-- Browser `localStorage`, modelled as an association list from keys to
string values with at most one binding per key. -/
abbrev Storage := List (String × String)

/-- Model of `localStorage.getItem(k)`: the value bound to `k`, if any. -/
def getItem (st : Storage) (k : String) : Option String :=
  (st.find? (fun p => p.1 == k)).map (fun p => p.2)

/-- Model of `localStorage.removeItem(k)`: drop every binding of `k`. -/
def removeItem (st : Storage) (k : String) : Storage :=
  st.filter (fun p => p.1 != k)

/-- Model of `localStorage.setItem(k, v)`: bind `k` to `v`, replacing any
previous binding. -/
def setItem (st : Storage) (k v : String) : Storage :=
  (k, v) :: removeItem st k

/-! ## Token methods (api.ts lines 217-227) -/

/-- The storage key used for the bearer token. -/
def authTokenKey : String := "authToken"

/-- `ApiService.getToken`: `localStorage.getItem('authToken')`. -/
def getToken (st : Storage) : Option String :=
  getItem st authTokenKey

/-- `ApiService.setToken`: `localStorage.setItem('authToken', token)`. -/
def setToken (st : Storage) (token : String) : Storage :=
  setItem st authTokenKey token

/-- `ApiService.removeToken`: `localStorage.removeItem('authToken')`. -/
def removeToken (st : Storage) : Storage :=
  removeItem st authTokenKey

/-- `ApiService.isAuthenticated` (api.ts lines 628-630): `!!this.getToken()`. -/
def isAuthenticated (st : Storage) : Bool :=
  (getToken st).isSome

/-! ## Constructor base URL (api.ts lines 200-203) -/

/-- JavaScript `a || b` on a string `a` and a possibly-undefined string `b`:
the left operand when it is truthy (non-empty), otherwise the right. -/
def jsOrString (a : String) (b : Option String) : Option String :=
  if a ≠ "" then some a else b

/-- The base URL computed by the `ApiService` constructor:
`'https://pesaprime-end.onrender.com' || import.meta.env.VITE_API_BASE_URL`,
where `env` models `import.meta.env.VITE_API_BASE_URL` (`none` = unset). -/
def constructorBaseURL (env : Option String) : Option String :=
  jsOrString "https://pesaprime-end.onrender.com" env

/-! ## Auth headers and request config (api.ts lines 209-215, 332-341) -/

/-- A header list; lookup of a header by name. -/
def headerLookup (hs : List (String × String)) (k : String) : Option String :=
  (hs.find? (fun p => p.1 == k)).map (fun p => p.2)

/-- `ApiService.getAuthHeaders`: always `Content-Type: application/json`,
plus `Authorization: Bearer <token>` exactly when a token is stored. -/
def getAuthHeaders (st : Storage) : List (String × String) :=
  [("Content-Type", "application/json")] ++
    (match getToken st with
     | some t => [("Authorization", "Bearer " ++ t)]
     | none => [])

/-- The `RequestInit` options object passed to `ApiService.request`;
every field is optional, mirroring the object-literal call sites. -/
structure RequestInitOpts where
  method : Option String := none
  body : Option String := none
  headers : Option (List (String × String)) := none
deriving Repr, DecidableEq

/-- The request configuration built by `ApiService.request`:
`{ headers: this.getAuthHeaders(), ...options }` together with the URL
`` `${this.baseURL}${endpoint}` ``.  A `headers` key in `options` would
replace the auth headers entirely, since the spread comes second. -/
structure RequestConfig where
  url : String
  headers : List (String × String)
  method : Option String
  body : Option String
deriving Repr, DecidableEq

/-- Builds the `fetch` configuration used by `ApiService.request`. -/
def buildConfig (baseURL : String) (st : Storage) (endpoint : String)
    (opts : RequestInitOpts) : RequestConfig :=
  { url := baseURL ++ endpoint
    headers := opts.headers.getD (getAuthHeaders st)
    method := opts.method
    body := opts.body }

/-! ## Route guards and route tables (App.tsx, and the App.tsx copy embedded
at the end of api.ts lines 695-873) -/

/-- A rendered element: the auth page, the loading spinner, a page component
(wrapped in `BaseLayout`), or a `<Navigate to=... replace />`. -/
inductive Elem where
  | authPage
  | spinner
  | page (name : String)
  | navigate (dest : String) (rep : Bool)
deriving Repr, DecidableEq

/-- `ProtectedRoute` (identical in both App.tsx copies): spinner while
loading, the wrapped children when authenticated, otherwise a replace
redirect to `/`. -/
def ProtectedRoute (loading isAuth : Bool) (child : Elem) : Elem :=
  if loading then Elem.spinner
  else if isAuth then child
  else Elem.navigate "/" true

/-- `PublicRoute` (identical in both App.tsx copies): spinner while loading,
the wrapped children when not authenticated, otherwise a replace redirect
to `/home`. -/
def PublicRoute (loading isAuth : Bool) (child : Elem) : Elem :=
  if loading then Elem.spinner
  else if !isAuth then child
  else Elem.navigate "/home" true

/-- A route table entry: an element rendered as-is, one wrapped in
`ProtectedRoute`, or one wrapped in `PublicRoute`. -/
inductive RouteElem where
  | plain (e : Elem)
  | prot (child : Elem)
  | pub (child : Elem)
deriving Repr, DecidableEq

/-- Renders a route table entry for the given auth-context state. -/
def renderRoute (loading isAuth : Bool) : RouteElem → Elem
  | RouteElem.plain e => e
  | RouteElem.prot c => ProtectedRoute loading isAuth c
  | RouteElem.pub c => PublicRoute loading isAuth c

/-- The route table of `AppRoutes` in src/App.tsx.  Note that its `/` route
renders `AuthPage` directly, without a `PublicRoute` wrapper. -/
def appRoutes : List (String × RouteElem) :=
  [ ("/", RouteElem.plain Elem.authPage)
  , ("/home", RouteElem.prot (Elem.page "Home"))
  , ("/wallet", RouteElem.prot (Elem.page "Wallet"))
  , ("/assets", RouteElem.prot (Elem.page "Assets"))
  , ("/profile", RouteElem.prot (Elem.page "Profile"))
  , ("/deposit", RouteElem.prot (Elem.page "Deposit"))
  , ("/withdraw", RouteElem.prot (Elem.page "Withdraw"))
  , ("/bonus", RouteElem.prot (Elem.page "Bonus"))
  , ("/trading/:pairId?", RouteElem.prot (Elem.page "Trading"))
  , ("/about", RouteElem.prot (Elem.page "AboutUs"))
  , ("/contact", RouteElem.prot (Elem.page "Contact"))
  , ("/faqs", RouteElem.prot (Elem.page "FAQs"))
  , ("/terms", RouteElem.prot (Elem.page "TermsConditions"))
  , ("/privacy", RouteElem.prot (Elem.page "PrivacyPolicy"))
  , ("*", RouteElem.plain (Elem.navigate "/" true)) ]

/-- The route table of `AppRoutes` in the App.tsx copy embedded at the end
of api.ts.  Here the `/` route is wrapped in `PublicRoute`, and there is an
additional `/investments` route. -/
def embeddedAppRoutes : List (String × RouteElem) :=
  [ ("/", RouteElem.pub Elem.authPage)
  , ("/home", RouteElem.prot (Elem.page "Home"))
  , ("/wallet", RouteElem.prot (Elem.page "Wallet"))
  , ("/assets", RouteElem.prot (Elem.page "Assets"))
  , ("/profile", RouteElem.prot (Elem.page "Profile"))
  , ("/investments", RouteElem.prot (Elem.page "InvestmentsPage"))
  , ("/deposit", RouteElem.prot (Elem.page "Deposit"))
  , ("/withdraw", RouteElem.prot (Elem.page "Withdraw"))
  , ("/bonus", RouteElem.prot (Elem.page "Bonus"))
  , ("/trading/:pairId?", RouteElem.prot (Elem.page "Trading"))
  , ("/about", RouteElem.prot (Elem.page "AboutUs"))
  , ("/contact", RouteElem.prot (Elem.page "Contact"))
  , ("/faqs", RouteElem.prot (Elem.page "FAQs"))
  , ("/terms", RouteElem.prot (Elem.page "TermsConditions"))
  , ("/privacy", RouteElem.prot (Elem.page "PrivacyPolicy"))
  , ("*", RouteElem.plain (Elem.navigate "/" true)) ]

/-! ## JSON values and JavaScript coercions -/

/-- A parsed JSON value.  Numeric literals relevant to this client are
integers, so numbers are carried as `Int`. -/
inductive Json where
  | null
  | bool (b : Bool)
  | num (n : Int)
  | str (s : String)
  | arr (xs : List Json)
  | obj (fields : List (String × Json))
deriving Repr

/-- JavaScript truthiness of a JSON value: `null`, `false`, `0` and `''`
are falsy; every array and object is truthy. -/
def Json.truthy : Json → Bool
  | Json.null => false
  | Json.bool b => b
  | Json.num n => n != 0
  | Json.str s => s != ""
  | Json.arr _ => true
  | Json.obj _ => true

/-- JavaScript property access `j.k` on a parsed JSON value, for non-null
values: a field of an object, `undefined` (`none`) otherwise.  Access on
`null` throws and is handled separately by the caller. -/
def Json.getField : Json → String → Option Json
  | Json.obj fs, k => (fs.find? (fun p => p.1 == k)).map (fun p => p.2)
  | _, _ => none

/-- The field value when it exists and is truthy (the test
`if (errorData.detail)` and its siblings), `none` otherwise. -/
def Json.truthyField (j : Json) (k : String) : Option Json :=
  match j.getField k with
  | some v => if v.truthy then some v else none
  | none => none

/-- JavaScript `typeof j === 'object'`: true for `null`, arrays and
objects; false for booleans, numbers and strings. -/
def Json.typeofObject : Json → Bool
  | Json.null => true
  | Json.arr _ => true
  | Json.obj _ => true
  | _ => false

mutual

/-- JavaScript `String(j)` / template-literal conversion of a JSON value:
arrays stringify as their elements joined with `,` (with `null` as the
empty string), objects as `[object Object]`. -/
def Json.jsToString : Json → String
  | Json.null => "null"
  | Json.bool b => cond b "true" "false"
  | Json.num n => toString n
  | Json.str s => s
  | Json.arr xs => Json.jsJoin "," xs
  | Json.obj _ => "[object Object]"

/-- `Array.prototype.join(sep)` on a list of JSON elements. -/
def Json.jsJoin (sep : String) : List Json → String
  | [] => ""
  | [x] => Json.jsJoinElem x
  | x :: y :: xs => Json.jsJoinElem x ++ sep ++ Json.jsJoin sep (y :: xs)

/-- A single element as converted by `Array.prototype.join`: `null`
becomes the empty string, everything else its string conversion. -/
def Json.jsJoinElem : Json → String
  | Json.null => ""
  | j => Json.jsToString j

end

mutual

/-- `JSON.stringify(j)` (cycle-free, so it never throws here). -/
def Json.stringify : Json → String
  | Json.null => "null"
  | Json.bool b => cond b "true" "false"
  | Json.num n => toString n
  | Json.str s => "\"" ++ s ++ "\""
  | Json.arr xs => "[" ++ Json.stringifyList xs ++ "]"
  | Json.obj fs => "\x7b" ++ Json.stringifyFields fs ++ "\x7d"

/-- Elements of a stringified array, comma-separated. -/
def Json.stringifyList : List Json → String
  | [] => ""
  | [x] => Json.stringify x
  | x :: y :: xs => Json.stringify x ++ "," ++ Json.stringifyList (y :: xs)

/-- Fields of a stringified object, comma-separated. -/
def Json.stringifyFields : List (String × Json) → String
  | [] => ""
  | [(k, v)] => "\"" ++ k ++ "\":" ++ Json.stringify v
  | (k, v) :: f :: fs =>
      "\"" ++ k ++ "\":" ++ Json.stringify v ++ "," ++ Json.stringifyFields (f :: fs)

end

/-! ## HTTP responses and thrown errors -/

/-- The body of an HTTP response as observed through `response.text()` /
`response.json()`: either reading the body throws, or it yields `text`
whose `JSON.parse` outcome is `parsed` (`none` when `JSON.parse` throws
on `text`). -/
inductive BodyRead where
  | readError
  | content (text : String) (parsed : Option Json)
deriving Repr

/-- An HTTP `Response` as consumed by `handleResponse`. -/
structure Response where
  status : Nat
  body : BodyRead
deriving Repr

/-- `response.ok`: status in the range 200-299. -/
def Response.ok (r : Response) : Bool :=
  decide (200 ≤ r.status) && decide (r.status ≤ 299)

/-- A thrown JavaScript error: its `message`, the optional `detail` and
`status` properties that `handleErrorResponse` attaches, and whether the
thrown value is a `TypeError` (as `fetch` throws on network failure). -/
structure JsError where
  message : String
  detail : Option String := none
  status : Option Nat := none
  isTypeError : Bool := false
deriving Repr, DecidableEq

/-- The fallback message `` `HTTP error! status: ${response.status}` ``. -/
def httpErrorFallback (status : Nat) : String :=
  "HTTP error! status: " ++ toString status

/-- One line of the field-specific validation error report:
`` `${key}: ...` `` with arrays joined by `', '`, strings verbatim, and
anything else `JSON.stringify`-ed. -/
def fieldErrorString (p : String × Json) : String :=
  match p.2 with
  | Json.arr xs => p.1 ++ ": " ++ Json.jsJoin ", " xs
  | Json.str s => p.1 ++ ": " ++ s
  | v => p.1 ++ ": " ++ Json.stringify v

/-- `ApiService.handleErrorResponse` (api.ts lines 269-330): computes the
error object thrown for a non-OK status that is not one of the four
specially-handled codes.  The pair is `(errorMessage, errorDetail)`. -/
def handleErrorResponse (r : Response) : JsError :=
  let md : String × String :=
    match r.body with
    | BodyRead.readError => (httpErrorFallback r.status, "")
    | BodyRead.content text parsed =>
      if text = "" then (httpErrorFallback r.status, "")
      else
        match parsed with
        | none => (text, "")
        | some j =>
          if j.typeofObject then
            match j with
            | Json.null => (text, "")
            | _ =>
              match j.truthyField "detail" with
              | some v => (v.jsToString, "")
              | none =>
                match j.truthyField "message" with
                | some v => (v.jsToString, "")
                | none =>
                  match j.truthyField "error" with
                  | some v => (v.jsToString, "")
                  | none =>
                    match j with
                    | Json.arr xs => (Json.jsJoin ", " xs, "")
                    | Json.obj fs =>
                      let fieldErrors :=
                        (fs.map fieldErrorString).filter (fun s => s != "")
                      if fieldErrors.isEmpty then ("Request failed", "")
                      else ("Validation failed",
                            String.intercalate "; " fieldErrors)
                    | _ => ("Request failed", "")
          else ("Request failed", "")
  { message := md.1
    detail := if md.2 ≠ "" then some md.2 else none
    status := some r.status }

/-- The outcome of `handleResponse`: the storage after any token removal,
the window events dispatched, and the returned JSON or the thrown error. -/
structure HandleResult where
  store : Storage
  events : List String
  result : Except JsError Json
deriving Repr

/-- `ApiService.handleResponse` (api.ts lines 229-267): 401 removes the
token, dispatches `unauthorized` and throws; 403/404/429 throw fixed
messages; any other non-OK status throws `handleErrorResponse`'s error;
an OK response returns its parsed JSON body, with an unparseable body
yielding `{}` for 204 and an `Invalid JSON response from server` error
otherwise. -/
def handleResponse (st : Storage) (r : Response) : HandleResult :=
  if r.status = 401 then
    { store := removeToken st
      events := ["unauthorized"]
      result := Except.error
        { message := "Authentication failed. Please login again." } }
  else if r.status = 403 then
    { store := st, events := []
      result := Except.error
        { message := "You do not have permission to perform this action." } }
  else if r.status = 404 then
    { store := st, events := []
      result := Except.error { message := "Resource not found." } }
  else if r.status = 429 then
    { store := st, events := []
      result := Except.error
        { message := "Too many requests. Please try again later." } }
  else if !r.ok then
    { store := st, events := []
      result := Except.error (handleErrorResponse r) }
  else
    match r.body with
    | BodyRead.content _ (some j) =>
      { store := st, events := [], result := Except.ok j }
    | BodyRead.content _ none =>
      if r.status = 204 then
        { store := st, events := [], result := Except.ok (Json.obj []) }
      else
        { store := st, events := []
          result := Except.error
            { message := "Invalid JSON response from server" } }
    | BodyRead.readError =>
      if r.status = 204 then
        { store := st, events := [], result := Except.ok (Json.obj []) }
      else
        { store := st, events := []
          result := Except.error
            { message := "Invalid JSON response from server" } }

/-! ## The request loop with retry (api.ts lines 332-370) -/

/-- JavaScript `s.includes(pat)`: substring containment. -/
def strContains (s pat : String) : Bool :=
  decide (pat.data <:+: s.data)

/-- `ApiService.isNetworkError` (api.ts lines 360-366): a `TypeError`
(network failure), or an error whose message mentions `Network` or
`fetch`. -/
def isNetworkError (e : JsError) : Bool :=
  e.isTypeError || strContains e.message "Network" || strContains e.message "fetch"

/-- `ApiService.maxRetries`: the constant instance field `3`. -/
def maxRetries : Nat := 3

/-- The outcome of one `fetch` call: a response, or a thrown error (a
`TypeError` on network failure). -/
inductive FetchOutcome where
  | response (r : Response)
  | thrown (e : JsError)

/-- The observable outcome of a call to `ApiService.request`: final
storage, events dispatched, the instance `retryCount` field after the
call, the durations passed to `delay` (in ms, in order), and the returned
JSON or the error rethrown. -/
structure RequestResult where
  store : Storage
  events : List String
  retryCount : Nat
  delays : List Nat
  result : Except JsError Json
deriving Repr

/-- One iteration of the `try` block in `ApiService.request`: `fetch`
either throws, or its response goes through `handleResponse`. -/
def attemptOnce (st : Storage) (o : FetchOutcome) : HandleResult :=
  match o with
  | FetchOutcome.thrown e => { store := st, events := [], result := Except.error e }
  | FetchOutcome.response r => handleResponse st r

/-- `ApiService.request` from attempt `i` with instance field
`retryCount = rc`: on an error, when `retryCount < maxRetries` and the
error is a network error, increments `retryCount`, awaits
`delay(1000 * retryCount)` and recurses; otherwise resets `retryCount`
to `0` and rethrows.  `fetches i` models the outcome of the `i`-th
`fetch` of this call. -/
def requestAttempts (fetches : Nat → FetchOutcome) (st : Storage)
    (i rc : Nat) : RequestResult :=
  let a := attemptOnce st (fetches i)
  match a.result with
  | Except.ok v =>
    { store := a.store, events := a.events, retryCount := rc
      delays := [], result := Except.ok v }
  | Except.error e =>
    if h : rc < maxRetries ∧ isNetworkError e = true then
      let rest := requestAttempts fetches a.store (i + 1) (rc + 1)
      { rest with events := a.events ++ rest.events
                  delays := 1000 * (rc + 1) :: rest.delays }
    else
      { store := a.store, events := a.events, retryCount := 0
        delays := [], result := Except.error e }
termination_by maxRetries - rc
decreasing_by
  have := h.1
  omega

/-- A call to `ApiService.request` when the singleton's `retryCount`
field currently holds `rc0`. -/
def request (fetches : Nat → FetchOutcome) (st : Storage) (rc0 : Nat) :
    RequestResult :=
  requestAttempts fetches st 0 rc0

/-! ## URL composition of getMyActivities (api.ts lines 501-517) -/

/-- An uppercase hexadecimal digit. -/
def hexChar (n : Nat) : Char :=
  if n < 10 then Char.ofNat (48 + n) else Char.ofNat (55 + n)

/-- Percent-encoding `%XX` of one byte. -/
def percentByte (b : UInt8) : String :=
  "%" ++ String.singleton (hexChar (b.toNat / 16)) ++
    String.singleton (hexChar (b.toNat % 16))

/-- One character as serialized by `URLSearchParams.toString`
(`application/x-www-form-urlencoded`): space becomes `+`; ASCII
alphanumerics and `*`, `-`, `.`, `_` pass through; every other character
has its UTF-8 bytes percent-encoded. -/
def formEncodeChar (c : Char) : String :=
  if c = ' ' then "+"
  else if c.isAlphanum || c = '*' || c = '-' || c = '.' || c = '_' then
    String.singleton c
  else
    String.join ((String.utf8EncodeChar c).map percentByte)

/-- `application/x-www-form-urlencoded` serialization of a string. -/
def formEncode (s : String) : String :=
  String.join (s.data.map formEncodeChar)

/-- `URLSearchParams.toString()` on the appended name-value pairs. -/
def serializeQuery (ps : List (String × String)) : String :=
  String.intercalate "&" (ps.map (fun p => formEncode p.1 ++ "=" ++ formEncode p.2))

/-- The optional parameters object of `ApiService.getMyActivities`.
JavaScript `number`s appearing here are naturals in practice (page and
limit counts). -/
structure ActivityParams where
  page : Option Nat := none
  activity_type : Option String := none
  limit : Option Nat := none
deriving Repr, DecidableEq

/-- The name-value pairs appended to the `URLSearchParams` by
`getMyActivities`: each `if (params?.x)` test appends only a truthy value
(a defined, nonzero number; a defined, nonempty string). -/
def activityQueryPairs (p : ActivityParams) : List (String × String) :=
  (match p.page with
   | some n => if n != 0 then [("page", toString n)] else []
   | none => []) ++
  (match p.activity_type with
   | some s => if s != "" then [("activity_type", s)] else []
   | none => []) ++
  (match p.limit with
   | some n => if n != 0 then [("limit", toString n)] else []
   | none => [])

/-- The URL requested by `ApiService.getMyActivities`:
`/api/activities/` with the serialized query string appended after `?`
when it is nonempty. -/
def getMyActivitiesUrl (p : ActivityParams) : String :=
  let queryString := serializeQuery (activityQueryPairs p)
  if queryString = "" then "/api/activities/"
  else "/api/activities/?" ++ queryString

/-! ## Storage lemmas -/

theorem getItem_setItem_self (st : Storage) (k v : String) :
    getItem (setItem st k v) k = some v := by
  simp [getItem, setItem, List.find?_cons]

theorem getItem_removeItem_self (st : Storage) (k : String) :
    getItem (removeItem st k) k = none := by
  induction st with
  | nil => rfl
  | cons p tl ih =>
    cases hb : p.1 == k with
    | true =>
      have h1 : removeItem (p :: tl) k = removeItem tl k := by
        simp [removeItem, List.filter_cons, hb, eq_of_beq hb]
      rw [h1]; exact ih
    | false =>
      have h1 : removeItem (p :: tl) k = p :: removeItem tl k := by
        simp [removeItem, List.filter_cons, hb, ne_of_beq_false hb]
      rw [h1]
      simpa [getItem, List.find?_cons, hb] using ih

theorem removeItem_idem (st : Storage) (k : String) :
    removeItem (removeItem st k) k = removeItem st k := by
  simp [removeItem, List.filter_filter]

theorem removeItem_all_ne (st : Storage) (k : String) :
    ((removeItem st k).all (fun p => p.1 != k)) = true := by
  simp only [List.all_eq_true, removeItem]
  intro p hp
  exact (List.mem_filter.mp hp).2

/-! ## Claim theorems -/

/-- C3: bearer-token storage round-trips through browser storage: after
`setToken t`, `getToken` returns `t`; after `removeToken`, `getToken`
returns `null`; `removeToken` is idempotent and leaves storage without the
`authToken` key regardless of the prior state. -/
theorem token_storage_roundtrip (st : Storage) (t : String) :
    getToken (setToken st t) = some t ∧
    getToken (removeToken st) = none ∧
    removeToken (removeToken st) = removeToken st ∧
    ((removeToken st).all (fun p => p.1 != authTokenKey)) = true := by
  exact ⟨getItem_setItem_self st authTokenKey t,
         getItem_removeItem_self st authTokenKey,
         removeItem_idem st authTokenKey,
         removeItem_all_ne st authTokenKey⟩

/-- C8: the base URL is independent of the `VITE_API_BASE_URL` environment
variable: for any two environment values (including unset), the constructor
computes the same base URL, the constant
`https://pesaprime-end.onrender.com`, because the non-empty string literal
on the left of `||` always short-circuits. -/
theorem baseURL_config_independent (e1 e2 : Option String) :
    constructorBaseURL e1 = constructorBaseURL e2 ∧
    constructorBaseURL e1 = some "https://pesaprime-end.onrender.com" := by
  constructor <;> simp [constructorBaseURL, jsOrString]

/-- C2: a request issued through `ApiService.request` (whose options carry
no `headers` key, as at every call site) is sent with
`Content-Type: application/json`, and with `Authorization: Bearer t`
exactly when a token `t` is stored under `authToken`. -/
theorem request_attaches_auth_headers (st : Storage) (baseURL endpoint : String)
    (opts : RequestInitOpts) (hop : opts.headers = none) :
    headerLookup (buildConfig baseURL st endpoint opts).headers "Content-Type" =
      some "application/json" ∧
    (∀ t, getToken st = some t →
      headerLookup (buildConfig baseURL st endpoint opts).headers "Authorization" =
        some ("Bearer " ++ t)) ∧
    (getToken st = none →
      headerLookup (buildConfig baseURL st endpoint opts).headers "Authorization" =
        none) := by
  refine ⟨?_, ?_, ?_⟩
  · cases h : getToken st <;>
      simp [buildConfig, hop, getAuthHeaders, headerLookup, h, List.find?_cons]
  · intro t ht
    simp [buildConfig, hop, getAuthHeaders, headerLookup, ht, List.find?_cons]
  · intro ht
    simp [buildConfig, hop, getAuthHeaders, headerLookup, ht, List.find?_cons]

/-- Witness for C2 at a concrete store holding token `tok` and at a store
holding no token. -/
theorem request_attaches_auth_headers_witness :
    (headerLookup (buildConfig "https://b" [("authToken", "tok")] "/e" {}).headers
       "Content-Type" = some "application/json" ∧
     headerLookup (buildConfig "https://b" [("authToken", "tok")] "/e" {}).headers
       "Authorization" = some ("Bearer " ++ "tok")) ∧
    headerLookup (buildConfig "https://b" [] "/e" {}).headers "Authorization" =
      none := by
  have h1 := request_attaches_auth_headers [("authToken", "tok")] "https://b" "/e" {} rfl
  have h2 := request_attaches_auth_headers [] "https://b" "/e" {} rfl
  exact ⟨⟨h1.1, h1.2.1 "tok" rfl⟩, h2.2.2 rfl⟩

/-- C4: every page route wrapped in `ProtectedRoute` (in either App.tsx
copy) renders the spinner while loading, the wrapped page exactly when
authenticated, and otherwise a replace redirect to `/`. -/
theorem protected_route_guard (p : String) (c : Elem) (b : Bool)
    (hmem : (p, RouteElem.prot c) ∈ appRoutes ∨
            (p, RouteElem.prot c) ∈ embeddedAppRoutes) :
    renderRoute true b (RouteElem.prot c) = Elem.spinner ∧
    renderRoute false true (RouteElem.prot c) = c ∧
    renderRoute false false (RouteElem.prot c) = Elem.navigate "/" true := by
  refine ⟨?_, ?_, ?_⟩ <;> simp [renderRoute, ProtectedRoute]

/-- Witness for C4 at the `/home` route. -/
theorem protected_route_guard_witness :
    renderRoute true true (RouteElem.prot (Elem.page "Home")) = Elem.spinner ∧
    renderRoute false true (RouteElem.prot (Elem.page "Home")) = Elem.page "Home" ∧
    renderRoute false false (RouteElem.prot (Elem.page "Home")) =
      Elem.navigate "/" true :=
  protected_route_guard "/home" (Elem.page "Home") true (Or.inl (by decide))

/-- C5 counterexample: in src/App.tsx the `/` route renders `AuthPage`
directly, with no `PublicRoute` wrapper, so an authenticated, non-loading
user who navigates to `/` is shown the auth page instead of being
redirected to `/home`. -/
theorem root_route_unguarded_cex :
    List.lookup "/" appRoutes = some (RouteElem.plain Elem.authPage) ∧
    renderRoute false true (RouteElem.plain Elem.authPage) = Elem.authPage ∧
    Elem.authPage ≠ Elem.navigate "/home" true := by
  refine ⟨by decide, rfl, by decide⟩

/-- C5 amended: the `PublicRoute` guard itself redirects an authenticated,
non-loading user to `/home` (replace navigation) and shows its children to
an unauthenticated user; the App.tsx copy embedded in api.ts wraps the `/`
route in `PublicRoute`, so there the claimed redirect happens, but in
src/App.tsx the `/` route renders the auth page unguarded, so an
authenticated user navigating to `/` is shown the auth page. -/
theorem public_route_guard_amended (c : Elem) (b : Bool) :
    PublicRoute true b c = Elem.spinner ∧
    PublicRoute false true c = Elem.navigate "/home" true ∧
    PublicRoute false false c = c ∧
    List.lookup "/" embeddedAppRoutes = some (RouteElem.pub Elem.authPage) ∧
    renderRoute false true (RouteElem.pub Elem.authPage) =
      Elem.navigate "/home" true ∧
    renderRoute false false (RouteElem.pub Elem.authPage) = Elem.authPage ∧
    List.lookup "/" appRoutes = some (RouteElem.plain Elem.authPage) ∧
    renderRoute false true (RouteElem.plain Elem.authPage) = Elem.authPage := by
  refine ⟨?_, ?_, ?_, by decide, rfl, rfl, by decide, rfl⟩ <;>
    simp [PublicRoute]

/-! ## String and list helper lemmas -/

theorem string_eq_empty_of_length (s : String) (h : s.length = 0) : s = "" := by
  cases s with
  | mk data =>
    cases data with
    | nil => rfl
    | cons c cs => simp [String.length] at h

theorem append_ne_empty_left (s t : String) (hs : s ≠ "") : s ++ t ≠ "" := by
  intro h
  have h0 : (s ++ t).length = 0 := by rw [h]; rfl
  rw [String.length_append] at h0
  exact hs (string_eq_empty_of_length s (by omega))

theorem intercalate_go_length (sep : String) :
    ∀ (l : List String) (a : String),
      a.length ≤ (String.intercalate.go a sep l).length := by
  intro l
  induction l with
  | nil => intro a; simp [String.intercalate.go]
  | cons b bs ih =>
    intro a
    have h := ih (a ++ sep ++ b)
    simp only [String.intercalate.go]
    calc a.length ≤ (a ++ sep ++ b).length := by
          simp [String.length_append]; omega
      _ ≤ _ := h

theorem intercalate_ne_empty (a : String) (l : List String) (ha : a ≠ "") :
    String.intercalate "; " (a :: l) ≠ "" := by
  have h1 : String.intercalate "; " (a :: l) = String.intercalate.go a "; " l := by
    simp [String.intercalate]
  have h2 := intercalate_go_length "; " l a
  intro hc
  rw [h1] at hc
  have h3 : (String.intercalate.go a "; " l).length = 0 := by rw [hc]; rfl
  have h4 : a.length = 0 := by omega
  exact ha (string_eq_empty_of_length a h4)

theorem serializeQuery_single (k v : String) :
    serializeQuery [(k, v)] = formEncode k ++ "=" ++ formEncode v := by
  simp [serializeQuery, String.intercalate, String.intercalate.go]

theorem serializeQuery_triple (k1 v1 k2 v2 k3 v3 : String) :
    serializeQuery [(k1, v1), (k2, v2), (k3, v3)] =
      ((formEncode k1 ++ "=" ++ formEncode v1) ++ "&" ++
       (formEncode k2 ++ "=" ++ formEncode v2)) ++ "&" ++
      (formEncode k3 ++ "=" ++ formEncode v3) := by
  simp [serializeQuery, String.intercalate, String.intercalate.go]

/-! ## Retry-loop invariants -/

theorem requestAttempts_spec (f : Nat → FetchOutcome) :
    ∀ (n : Nat) (st : Storage) (i rc : Nat), maxRetries - rc ≤ n →
      ((requestAttempts f st i rc).delays.length ≤ maxRetries - rc) ∧
      ((requestAttempts f st i rc).delays =
        (List.range (requestAttempts f st i rc).delays.length).map
          (fun k => 1000 * (rc + 1 + k))) ∧
      (∀ v, (requestAttempts f st i rc).result = Except.ok v →
        (requestAttempts f st i rc).retryCount =
          rc + (requestAttempts f st i rc).delays.length) ∧
      (∀ e, (requestAttempts f st i rc).result = Except.error e →
        (requestAttempts f st i rc).retryCount = 0) := by
  intro n
  induction n with
  | zero =>
    intro st i rc hn
    rw [requestAttempts]
    cases ha : (attemptOnce st (f i)).result with
    | ok v => simp [ha]
    | error e =>
      simp [ha]
      rw [if_neg (by rintro ⟨h1, h2⟩; omega)]
      simp
  | succ m ih =>
    intro st i rc hn
    rw [requestAttempts]
    cases ha : (attemptOnce st (f i)).result with
    | ok v => simp [ha]
    | error e =>
      simp only [ha]
      by_cases hc : rc < maxRetries ∧ isNetworkError e = true
      · rw [dif_pos hc]
        have hrec := ih (attemptOnce st (f i)).store (i + 1) (rc + 1) (by omega)
        obtain ⟨hlen, hdel, hok, herr⟩ := hrec
        refine ⟨?_, ?_, ?_, ?_⟩
        · simp only [List.length_cons]
          omega
        · simp only [List.length_cons]
          rw [List.range_succ_eq_map, List.map_cons, List.map_map]
          refine congrArg₂ List.cons (by ring_nf) ?_
          conv_lhs => rw [hdel]
          apply List.map_congr_left
          intro k _
          simp only [Function.comp_apply]
          omega
        · intro v hv
          have hrc := hok v (by simpa using hv)
          simp only [List.length_cons]
          omega
        · intro e2 he2
          have hrc := herr e2 (by simpa using he2)
          simpa using hrc
      · rw [dif_neg hc]
        simp

/-- C1 (amended): `handleResponse` normalizes a non-OK status into a
human-readable error: 401, 403, 404 and 429 throw their fixed messages;
every other non-OK status throws `handleErrorResponse`'s error, whose
message is taken from the parsed body's truthy `detail`, `message` or
`error` field in that order, with field-specific validation errors joined
into `Validation failed` plus a detail string; the message falls back to
the raw body text when the body is non-empty but unparseable, and to
`HTTP error! status: <status>` when the body is empty or unreadable. -/
theorem handleResponse_error_normalization (st : Storage) (r : Response) :
    (r.status = 401 → (handleResponse st r).result =
      Except.error { message := "Authentication failed. Please login again." }) ∧
    (r.status = 403 → (handleResponse st r).result =
      Except.error { message := "You do not have permission to perform this action." }) ∧
    (r.status = 404 → (handleResponse st r).result =
      Except.error { message := "Resource not found." }) ∧
    (r.status = 429 → (handleResponse st r).result =
      Except.error { message := "Too many requests. Please try again later." }) ∧
    (r.status ≠ 401 → r.status ≠ 403 → r.status ≠ 404 → r.status ≠ 429 →
      r.ok = false →
      (handleResponse st r).result = Except.error (handleErrorResponse r) ∧
      (handleErrorResponse r).status = some r.status) ∧
    (∀ text fs v, r.body = BodyRead.content text (some (Json.obj fs)) →
      text ≠ "" → (Json.obj fs).truthyField "detail" = some v →
      (handleErrorResponse r).message = v.jsToString) ∧
    (∀ text fs v, r.body = BodyRead.content text (some (Json.obj fs)) →
      text ≠ "" → (Json.obj fs).truthyField "detail" = none →
      (Json.obj fs).truthyField "message" = some v →
      (handleErrorResponse r).message = v.jsToString) ∧
    (∀ text fs v, r.body = BodyRead.content text (some (Json.obj fs)) →
      text ≠ "" → (Json.obj fs).truthyField "detail" = none →
      (Json.obj fs).truthyField "message" = none →
      (Json.obj fs).truthyField "error" = some v →
      (handleErrorResponse r).message = v.jsToString) ∧
    (∀ text fs, r.body = BodyRead.content text (some (Json.obj fs)) →
      text ≠ "" → (Json.obj fs).truthyField "detail" = none →
      (Json.obj fs).truthyField "message" = none →
      (Json.obj fs).truthyField "error" = none →
      ((fs.map fieldErrorString).filter (fun x => x != "")) ≠ [] →
      (handleErrorResponse r).message = "Validation failed" ∧
      (handleErrorResponse r).detail = some (String.intercalate "; "
        ((fs.map fieldErrorString).filter (fun x => x != "")))) ∧
    (∀ pj, r.body = BodyRead.content "" pj →
      (handleErrorResponse r).message = httpErrorFallback r.status) ∧
    (r.body = BodyRead.readError →
      (handleErrorResponse r).message = httpErrorFallback r.status) ∧
    (∀ text, r.body = BodyRead.content text none → text ≠ "" →
      (handleErrorResponse r).message = text) := by
  refine ⟨?_, ?_, ?_, ?_, ?_, ?_, ?_, ?_, ?_, ?_, ?_, ?_⟩
  · intro h; simp [handleResponse, h]
  · intro h; simp [handleResponse, h]
  · intro h; simp [handleResponse, h]
  · intro h; simp [handleResponse, h]
  · intro h1 h2 h3 h4 hok
    constructor
    · simp [handleResponse, h1, h2, h3, h4, hok]
    · simp [handleErrorResponse]
  · intro text fs v hbody htext hdet
    simp [handleErrorResponse, hbody, htext, Json.typeofObject, hdet]
  · intro text fs v hbody htext hdet hmsg
    simp [handleErrorResponse, hbody, htext, Json.typeofObject, hdet, hmsg]
  · intro text fs v hbody htext hdet hmsg herr
    simp [handleErrorResponse, hbody, htext, Json.typeofObject, hdet, hmsg, herr]
  · intro text fs hbody htext hdet hmsg herr hfe
    have hie : ((fs.map fieldErrorString).filter (fun x => x != "")).isEmpty = false := by
      cases hc : (fs.map fieldErrorString).filter (fun x => x != "") with
      | nil => exact absurd hc hfe
      | cons a l => simp
    have hne : String.intercalate "; "
        ((fs.map fieldErrorString).filter (fun x => x != "")) ≠ "" := by
      cases hc : (fs.map fieldErrorString).filter (fun x => x != "") with
      | nil => exact absurd hc hfe
      | cons a l =>
        have hmem2 : a ∈ (fs.map fieldErrorString).filter (fun x => x != "") := by
          rw [hc]; exact List.mem_cons_self a l
        have ha : a ≠ "" := by
          have := (List.mem_filter.mp hmem2).2
          simpa using this
        exact intercalate_ne_empty a l ha
    constructor
    · simp [handleErrorResponse, hbody, htext, Json.typeofObject, hdet, hmsg, herr, hie]
    · simp [handleErrorResponse, hbody, htext, Json.typeofObject, hdet, hmsg, herr, hie, hne]
  · intro pj hbody
    simp [handleErrorResponse, hbody]
  · intro hbody
    simp [handleErrorResponse, hbody]
  · intro text hbody htext
    simp [handleErrorResponse, hbody, htext]

/-- Witness for C1 at a 500 response whose parsed body has a truthy
`detail` field. -/
theorem handleResponse_error_normalization_witness :
    (handleResponse []
        ⟨500, BodyRead.content "x" (some (Json.obj [("detail", Json.str "boom")]))⟩).result =
      Except.error (handleErrorResponse
        ⟨500, BodyRead.content "x" (some (Json.obj [("detail", Json.str "boom")]))⟩) ∧
    (handleErrorResponse
        ⟨500, BodyRead.content "x" (some (Json.obj [("detail", Json.str "boom")]))⟩).message =
      (Json.str "boom").jsToString := by
  have h := handleResponse_error_normalization []
    ⟨500, BodyRead.content "x" (some (Json.obj [("detail", Json.str "boom")]))⟩
  exact ⟨(h.2.2.2.2.1 (by decide) (by decide) (by decide) (by decide) rfl).1,
         h.2.2.2.2.2.1 "x" [("detail", Json.str "boom")] (Json.str "boom")
           rfl (by decide) rfl⟩

/-- C1 counterexample: a 500 response with the non-empty unparseable body
`oops not json` throws that raw text as its message, not the claimed
fallback `HTTP error! status: 500`. -/
theorem handleResponse_unparseable_body_cex :
    (handleResponse [] ⟨500, BodyRead.content "oops not json" none⟩).result =
      Except.error { message := "oops not json", detail := none, status := some 500 } ∧
    "oops not json" ≠ httpErrorFallback 500 := by
  constructor
  · rfl
  · decide

/-- C9: a 401 response makes `handleResponse` remove the stored
`authToken` and dispatch the `unauthorized` window event before throwing,
so `isAuthenticated` is false immediately afterwards (also through a full
`request` call); no other status code touches the storage. -/
theorem unauthorized_removes_token (st : Storage) (r : Response) :
    (r.status = 401 →
      (handleResponse st r).store = removeToken st ∧
      (handleResponse st r).events = ["unauthorized"] ∧
      isAuthenticated (handleResponse st r).store = false ∧
      (handleResponse st r).result = Except.error
        { message := "Authentication failed. Please login again." }) ∧
    (r.status ≠ 401 →
      (handleResponse st r).store = st ∧ (handleResponse st r).events = []) ∧
    (∀ f rc0, f 0 = FetchOutcome.response r → r.status = 401 →
      (request f st rc0).result = Except.error
        { message := "Authentication failed. Please login again." } ∧
      isAuthenticated (request f st rc0).store = false) := by
  have hauth : isAuthenticated (removeToken st) = false := by
    simp [isAuthenticated, getToken, removeToken, getItem_removeItem_self]
  refine ⟨?_, ?_, ?_⟩
  · intro h
    refine ⟨?_, ?_, ?_, ?_⟩ <;> simp [handleResponse, h, hauth]
  · intro h
    rw [handleResponse, if_neg h]
    constructor <;> (repeat' split) <;> rfl
  · intro f rc0 hf h
    have hh : handleResponse st r =
        ⟨removeToken st, ["unauthorized"], Except.error
          { message := "Authentication failed. Please login again." }⟩ := by
      rw [handleResponse, if_pos h]
    have ha : attemptOnce st (f 0) = handleResponse st r := by rw [hf]; rfl
    have ha2 : (attemptOnce st (f 0)).result = Except.error
        { message := "Authentication failed. Please login again." } := by
      rw [ha, hh]
    have ha3 : (attemptOnce st (f 0)).store = removeToken st := by
      rw [ha, hh]
    rw [request, requestAttempts]
    simp only [ha2]
    rw [dif_neg (by rintro ⟨h1, h2⟩; revert h2; decide)]
    exact ⟨rfl, by simp [ha3, hauth]⟩

/-- Witness for C9: a stored token is removed by a 401 response and kept
by a 404 response. -/
theorem unauthorized_removes_token_witness :
    (handleResponse [("authToken", "tok")] ⟨401, BodyRead.content "" none⟩).store =
      removeToken [("authToken", "tok")] ∧
    (handleResponse [("authToken", "tok")] ⟨401, BodyRead.content "" none⟩).events =
      ["unauthorized"] ∧
    isAuthenticated (handleResponse [("authToken", "tok")]
      ⟨401, BodyRead.content "" none⟩).store = false ∧
    (handleResponse [("authToken", "tok")] ⟨404, BodyRead.content "" none⟩).store =
      [("authToken", "tok")] := by
  have h1 := unauthorized_removes_token [("authToken", "tok")]
    ⟨401, BodyRead.content "" none⟩
  have h2 := unauthorized_removes_token [("authToken", "tok")]
    ⟨404, BodyRead.content "" none⟩
  obtain ⟨ha, hb, hc, -⟩ := h1.1 rfl
  exact ⟨ha, hb, hc, (h2.2.1 (by decide)).1⟩

/-- C6: every `request` call terminates with a bounded retry loop: at most
`maxRetries = 3` delays are awaited, the `k`-th retry waits
`1000 * retryCount` ms for the then-current `retryCount`, and a first
attempt failing with a non-network error is rethrown immediately with no
retry at all. -/
theorem request_retry_termination (f : Nat → FetchOutcome) (st : Storage) (rc0 : Nat) :
    ((request f st rc0).delays.length ≤ maxRetries) ∧
    ((request f st rc0).delays =
      (List.range (request f st rc0).delays.length).map
        (fun k => 1000 * (rc0 + 1 + k))) ∧
    (∀ e, (attemptOnce st (f 0)).result = Except.error e →
      isNetworkError e = false →
      (request f st rc0).delays = [] ∧
      (request f st rc0).result = Except.error e) := by
  obtain ⟨hlen, hdel, hok, herr⟩ :=
    requestAttempts_spec f maxRetries st 0 rc0 (by omega)
  refine ⟨?_, ?_, ?_⟩
  · rw [request]; omega
  · rw [request]; exact hdel
  · intro e he hnet
    rw [request, requestAttempts]
    simp only [he]
    rw [dif_neg (by rintro ⟨h1, h2⟩; rw [hnet] at h2; exact Bool.false_ne_true h2)]
    exact ⟨rfl, rfl⟩

/-- Witness for C6: a 404 error (not a network error) is rethrown with no
delay. -/
theorem request_retry_termination_witness :
    (request (fun _ => FetchOutcome.response
        ⟨404, BodyRead.content "" none⟩) [] 0).delays = [] ∧
    (request (fun _ => FetchOutcome.response
        ⟨404, BodyRead.content "" none⟩) [] 0).result =
      Except.error { message := "Resource not found." } := by
  exact (request_retry_termination (fun _ => FetchOutcome.response
    ⟨404, BodyRead.content "" none⟩) [] 0).2.2
    { message := "Resource not found." } rfl (by decide)

/-- C10: the retry budget is shared instance state: starting a `request`
with the singleton field `retryCount = rc0 ≤ 3`, the field never exceeds
`maxRetries = 3`, is reset to `0` exactly on the error path, is left at
`rc0` plus the number of retries performed when the request ultimately
succeeds, and at most `maxRetries - rc0` retries are available to the
call. -/
theorem retryCount_shared_instance_state (f : Nat → FetchOutcome) (st : Storage)
    (rc0 : Nat) (h : rc0 ≤ maxRetries) :
    ((request f st rc0).retryCount ≤ maxRetries) ∧
    (∀ e, (request f st rc0).result = Except.error e →
      (request f st rc0).retryCount = 0) ∧
    (∀ v, (request f st rc0).result = Except.ok v →
      (request f st rc0).retryCount = rc0 + (request f st rc0).delays.length) ∧
    ((request f st rc0).delays.length ≤ maxRetries - rc0) := by
  obtain ⟨hlen, hdel, hok, herr⟩ :=
    requestAttempts_spec f maxRetries st 0 rc0 (by omega)
  rw [request]
  refine ⟨?_, herr, hok, hlen⟩
  cases hres : (requestAttempts f st 0 rc0).result with
  | ok v => have := hok v hres; omega
  | error e => have := herr e hres; omega

/-- Witness for C10 at a fetch sequence with one network failure followed
by a successful response, starting from a fresh `retryCount` of `0`. -/
theorem retryCount_shared_instance_state_witness :
    0 ≤ maxRetries ∧
    (((request (fun i => if i = 0 then FetchOutcome.thrown
          { message := "Failed to fetch", isTypeError := true }
        else FetchOutcome.response
          ⟨200, BodyRead.content "[]" (some (Json.arr []))⟩)
        [] 0).retryCount ≤ maxRetries) ∧
     (∀ e, (request (fun i => if i = 0 then FetchOutcome.thrown
          { message := "Failed to fetch", isTypeError := true }
        else FetchOutcome.response
          ⟨200, BodyRead.content "[]" (some (Json.arr []))⟩)
        [] 0).result = Except.error e →
       (request (fun i => if i = 0 then FetchOutcome.thrown
          { message := "Failed to fetch", isTypeError := true }
        else FetchOutcome.response
          ⟨200, BodyRead.content "[]" (some (Json.arr []))⟩)
        [] 0).retryCount = 0) ∧
     (∀ v, (request (fun i => if i = 0 then FetchOutcome.thrown
          { message := "Failed to fetch", isTypeError := true }
        else FetchOutcome.response
          ⟨200, BodyRead.content "[]" (some (Json.arr []))⟩)
        [] 0).result = Except.ok v →
       (request (fun i => if i = 0 then FetchOutcome.thrown
          { message := "Failed to fetch", isTypeError := true }
        else FetchOutcome.response
          ⟨200, BodyRead.content "[]" (some (Json.arr []))⟩)
        [] 0).retryCount = 0 + (request (fun i => if i = 0 then FetchOutcome.thrown
          { message := "Failed to fetch", isTypeError := true }
        else FetchOutcome.response
          ⟨200, BodyRead.content "[]" (some (Json.arr []))⟩)
        [] 0).delays.length) ∧
     ((request (fun i => if i = 0 then FetchOutcome.thrown
          { message := "Failed to fetch", isTypeError := true }
        else FetchOutcome.response
          ⟨200, BodyRead.content "[]" (some (Json.arr []))⟩)
        [] 0).delays.length ≤ maxRetries - 0)) :=
  ⟨by decide, retryCount_shared_instance_state _ [] 0 (by decide)⟩

/-- C7 (amended): `getMyActivities` composes its URL from its parameters:
no parameters yields `/api/activities/`; each supplied truthy value (a
nonzero `page` or `limit`, a non-empty `activity_type`) is appended as the
corresponding query parameter in the order page, activity_type, limit; a
supplied zero or empty value is ignored because of the JavaScript
truthiness tests. -/
theorem getMyActivities_url_composition (a l : Nat) (t : String)
    (ha : a ≠ 0) (hl : l ≠ 0) (ht : t ≠ "") :
    getMyActivitiesUrl {} = "/api/activities/" ∧
    getMyActivitiesUrl { page := some a } =
      "/api/activities/?page=" ++ formEncode (toString a) ∧
    getMyActivitiesUrl { activity_type := some t } =
      "/api/activities/?activity_type=" ++ formEncode t ∧
    getMyActivitiesUrl { limit := some l } =
      "/api/activities/?limit=" ++ formEncode (toString l) ∧
    getMyActivitiesUrl { page := some a, activity_type := some t, limit := some l } =
      "/api/activities/?page=" ++ formEncode (toString a) ++
        "&activity_type=" ++ formEncode t ++ "&limit=" ++ formEncode (toString l) ∧
    getMyActivitiesUrl { page := some 0 } = "/api/activities/" ∧
    getMyActivitiesUrl { activity_type := some "" } = "/api/activities/" ∧
    getMyActivitiesUrl { limit := some 0 } = "/api/activities/" := by
  refine ⟨rfl, ?_, ?_, ?_, ?_, rfl, rfl, rfl⟩
  · have hp : activityQueryPairs { page := some a } = [("page", toString a)] := by
      simp [activityQueryPairs, ha]
    rw [getMyActivitiesUrl, hp, serializeQuery_single]
    rw [if_neg (append_ne_empty_left _ _
      (append_ne_empty_left (formEncode "page") "=" (by decide)))]
    rw [← String.append_assoc, ← String.append_assoc]
    rfl
  · have hp : activityQueryPairs { activity_type := some t } =
        [("activity_type", t)] := by
      simp [activityQueryPairs, ht]
    rw [getMyActivitiesUrl, hp, serializeQuery_single]
    rw [if_neg (append_ne_empty_left _ _
      (append_ne_empty_left (formEncode "activity_type") "=" (by decide)))]
    rw [← String.append_assoc, ← String.append_assoc]
    rfl
  · have hp : activityQueryPairs { limit := some l } = [("limit", toString l)] := by
      simp [activityQueryPairs, hl]
    rw [getMyActivitiesUrl, hp, serializeQuery_single]
    rw [if_neg (append_ne_empty_left _ _
      (append_ne_empty_left (formEncode "limit") "=" (by decide)))]
    rw [← String.append_assoc, ← String.append_assoc]
    rfl
  · have hp : activityQueryPairs
        { page := some a, activity_type := some t, limit := some l } =
        [("page", toString a), ("activity_type", t), ("limit", toString l)] := by
      simp [activityQueryPairs, ha, ht, hl]
    rw [getMyActivitiesUrl, hp, serializeQuery_triple]
    rw [if_neg (append_ne_empty_left _ _ (append_ne_empty_left _ "&"
      (append_ne_empty_left _ _ (append_ne_empty_left _ "&"
        (append_ne_empty_left _ _
          (append_ne_empty_left (formEncode "page") "=" (by decide)))))))]
    rw [show ("/api/activities/?page=" : String) =
          "/api/activities/?" ++ "page" ++ "=" from rfl,
        show ("&activity_type=" : String) = "&" ++ "activity_type" ++ "=" from rfl,
        show ("&limit=" : String) = "&" ++ "limit" ++ "=" from rfl]
    simp only [String.append_assoc]
    rfl

/-- Witness for C7 at page 2, activity_type `deposit`, limit 10. -/
theorem getMyActivities_url_composition_witness :
    getMyActivitiesUrl {} = "/api/activities/" ∧
    getMyActivitiesUrl { page := some 2 } = "/api/activities/?page=2" ∧
    getMyActivitiesUrl { activity_type := some "deposit" } =
      "/api/activities/?activity_type=deposit" ∧
    getMyActivitiesUrl { limit := some 10 } = "/api/activities/?limit=10" ∧
    getMyActivitiesUrl
        { page := some 2, activity_type := some "deposit", limit := some 10 } =
      "/api/activities/?page=2&activity_type=deposit&limit=10" ∧
    getMyActivitiesUrl { page := some 0 } = "/api/activities/" ∧
    getMyActivitiesUrl { activity_type := some "" } = "/api/activities/" ∧
    getMyActivitiesUrl { limit := some 0 } = "/api/activities/" := by
  exact getMyActivities_url_composition 2 10 "deposit"
    (by decide) (by decide) (by decide)

/-- C7 counterexample: the supplied value `page = 0` is not appended to
the URL — the JavaScript truthiness test `if (params?.page)` drops it, so
the URL is the bare `/api/activities/` and in particular never starts
with `/api/activities/?page=0`. -/
theorem getMyActivities_zero_page_cex :
    getMyActivitiesUrl { page := some 0 } = "/api/activities/" ∧
    ∀ s, getMyActivitiesUrl { page := some 0 } ≠ "/api/activities/?page=0" ++ s := by
  constructor
  · rfl
  · intro s h
    have h0 : ("/api/activities/" : String).length =
        ("/api/activities/?page=0" ++ s).length := by rw [← h]; rfl
    rw [String.length_append] at h0
    have h1 : ("/api/activities/" : String).length = 16 := rfl
    have h2 : ("/api/activities/?page=0" : String).length = 23 := rfl
    omega

end Pesaprime
